import Mathlib

/-!
Verification development for the signalforge container-runtime client:
a shallow embedding of `src-tauri/src/docker.rs` and
`src-tauri/src/commands.rs` (the container-runtime client, stats
derivation, topology inference and command layer), together with
theorems checking the natural-language specification against it.

Modelling conventions:
* Rust `u64`/`i64` counters become `Nat`/`Int` (no overflow is reachable
  on the daemon-reported quantities involved in the claims).
* Rust `f64` percentage arithmetic becomes exact `ℚ` arithmetic; the
  guarded divisions of the source never divide by zero, so the rational
  model coincides with the float expressions symbolically.
* Rust `Result<T, String>` becomes `Except String T`.
* `HashMap` values that the source only iterates are modelled as
  association lists (`List (key × value)`); no claim depends on hash
  iteration order.
* Rust string primitives (`to_lowercase`, `starts_with`, `contains`,
  `trim_start_matches('/')`, `split('/')`, `join`) are modelled on the
  character list underlying the string, faithful on the ASCII data the
  daemon reports.
-/

namespace SignalForge

/-- Models Rust `str::to_lowercase` (ASCII-faithful). -/
def lowercase (s : String) : String :=
  ⟨s.data.map Char.toLower⟩

/-- Models Rust `str::starts_with`. -/
def starts_with (s pat : String) : Bool :=
  pat.data.isPrefixOf s.data

/-- Models Rust `str::trim_start_matches('/')`. -/
def trim_slashes (s : String) : String :=
  ⟨s.data.dropWhile (fun c => c == '/')⟩

/-- Helper for `str_contains`: substring search on character lists. -/
def str_contains_aux (pat : List Char) : List Char → Bool
  | [] => pat.isEmpty
  | c :: rest => pat.isPrefixOf (c :: rest) || str_contains_aux pat rest

/-- Models Rust `str::contains` (substring test). -/
def str_contains (s pat : String) : Bool :=
  str_contains_aux pat.data s.data

/-- Models Rust `k.split('/').next().unwrap()`: the piece of `k` before
the first `'/'` (the whole of `k` when it has no slash). -/
def first_split_piece (k : String) : String :=
  ⟨k.data.takeWhile (fun c => !(c == '/'))⟩

/-- Models `Vec<String>::join(",")`. -/
def join_sep (sep : String) : List String → String
  | [] => ""
  | [x] => x
  | x :: y :: rest => ⟨x.data ++ sep.data ++ (join_sep sep (y :: rest)).data⟩

/-! ## Input data model (the bollard types the source consumes) -/

/-- bollard `Port` (the fields `docker.rs` reads). The source renders the
transport enum with `format!("{:?}", t)`; we model the rendered string. -/
structure Port where
  private_port : Nat
  public_port : Option Nat
  typ : Option String
deriving DecidableEq

/-- bollard `ContainerSummary` (the fields `docker.rs` reads). -/
structure ContainerSummary where
  id : Option String
  names : Option (List String)
  image : Option String
  status : Option String
  state : Option String
  created : Option Int
  ports : Option (List Port)
deriving DecidableEq

/-- bollard `CPUUsage` (the field `docker.rs` reads). -/
structure CPUUsage where
  total_usage : Nat
deriving DecidableEq

/-- bollard `CPUStats` (the fields `docker.rs` reads). -/
structure CPUStats where
  cpu_usage : CPUUsage
  system_cpu_usage : Option Nat
  online_cpus : Option Nat
deriving DecidableEq

/-- bollard `MemoryStats` (the fields `docker.rs` reads). -/
structure MemoryStats where
  usage : Option Nat
  limit : Option Nat
deriving DecidableEq

/-- bollard `NetworkStats` (the fields `docker.rs` reads). -/
structure NetworkStats where
  rx_bytes : Nat
  tx_bytes : Nat
deriving DecidableEq

/-- bollard `Stats`: one one-shot sample carrying the current
(`cpu_stats`) and previous (`precpu_stats`) counter snapshots. The
`networks` map is modelled as an association list of interface name to
counters. -/
structure Stats where
  cpu_stats : CPUStats
  precpu_stats : CPUStats
  memory_stats : MemoryStats
  networks : Option (List (String × NetworkStats))
deriving DecidableEq

/-! ## Output data model (`docker.rs` view structs) -/

/-- Models `docker.rs` `PortMapping`. -/
structure PortMapping where
  private_port : Nat
  public_port : Option Nat
  port_type : String
deriving DecidableEq

/-- Models `docker.rs` `ContainerInfo`. -/
structure ContainerInfo where
  id : String
  name : String
  image : String
  status : String
  state : String
  created : Int
  ports : List PortMapping
deriving DecidableEq

/-- Models `docker.rs` `ContainerStats`; the two percentage fields are `f64` in
the source, modelled exactly in `ℚ`. -/
structure ContainerStats where
  cpu_percent : ℚ
  memory_usage : Nat
  memory_limit : Nat
  memory_percent : ℚ
  network_rx : Nat
  network_tx : Nat
deriving DecidableEq

/-! ## Stats derivation (`docker.rs` lines 216-264) -/

/-- Models `docker.rs::calculate_cpu_percent` (lines 247-264), with the `f64`
arithmetic carried out in `ℚ`. -/
def calculate_cpu_percent (stats : Stats) : ℚ :=
  let cpu_delta : ℚ :=
    (stats.cpu_stats.cpu_usage.total_usage : ℚ)
      - (stats.precpu_stats.cpu_usage.total_usage : ℚ)
  let system_delta : ℚ :=
    ((stats.cpu_stats.system_cpu_usage.getD 0 : Nat) : ℚ)
      - ((stats.precpu_stats.system_cpu_usage.getD 0 : Nat) : ℚ)
  let cpu_count : ℚ := ((stats.cpu_stats.online_cpus.getD 1 : Nat) : ℚ)
  if 0 < system_delta ∧ 0 < cpu_delta then
    cpu_delta / system_delta * cpu_count * 100
  else
    0

/-- Models `docker.rs::calculate_stats` (lines 216-245). -/
def calculate_stats (stats : Stats) : ContainerStats :=
  let cpu_percent := calculate_cpu_percent stats
  let memory_usage := stats.memory_stats.usage.getD 0
  let memory_limit := stats.memory_stats.limit.getD 1
  let memory_percent : ℚ :=
    if 0 < memory_limit then
      ((memory_usage : ℚ) / (memory_limit : ℚ)) * 100
    else
      0
  let rxtx :=
    (stats.networks.map (fun nets =>
      nets.foldl (fun p net => (p.1 + net.2.rx_bytes, p.2 + net.2.tx_bytes)) (0, 0))).getD
      (0, 0)
  { cpu_percent := cpu_percent
    memory_usage := memory_usage
    memory_limit := memory_limit
    memory_percent := memory_percent
    network_rx := rxtx.1
    network_tx := rxtx.2 }

/-- The claim's `cpuDelta`: current minus previous total CPU usage (the
source's `cpu_delta` let-binding). -/
def cpuDelta (stats : Stats) : ℚ :=
  (stats.cpu_stats.cpu_usage.total_usage : ℚ)
    - (stats.precpu_stats.cpu_usage.total_usage : ℚ)

/-- The claim's `systemDelta`: current minus previous system CPU usage,
each defaulting to 0 when unreported (the source's `system_delta`). -/
def systemDelta (stats : Stats) : ℚ :=
  ((stats.cpu_stats.system_cpu_usage.getD 0 : Nat) : ℚ)
    - ((stats.precpu_stats.system_cpu_usage.getD 0 : Nat) : ℚ)

/-- The claim's `onlineCpuCount`, defaulting to 1 when unreported (the
source's `cpu_count`). -/
def onlineCpus (stats : Stats) : ℚ :=
  ((stats.cpu_stats.online_cpus.getD 1 : Nat) : ℚ)

/-! ## Container listing (`docker.rs` lines 71-121)

The source constant `SIGNALFORGE_PREFIX = "signalforge-"` is inlined as a
string literal below. -/

/-- The name computed by `list_containers`: first reported name with
leading slashes trimmed, `"unknown"` when the daemon reports none. -/
def summary_name_list (c : ContainerSummary) : String :=
  ((c.names.bind List.head?).map trim_slashes).getD "unknown"

/-- The per-container closure of `docker.rs::list_containers`
(lines 86-117): `None` filters the container out. -/
def summary_to_info (c : ContainerSummary) : Option ContainerInfo :=
  let name := summary_name_list c
  if !(starts_with name "signalforge-") then
    none
  else
    some
      { id := c.id.getD ""
        name := name
        image := c.image.getD ""
        status := c.status.getD ""
        state := c.state.getD ""
        created := c.created.getD 0
        ports :=
          (c.ports.getD []).map (fun p =>
            { private_port := p.private_port
              public_port := p.public_port
              port_type := p.typ.getD "" }) }

/-- The pure body of `docker.rs::list_containers`: filter and map the
daemon's container list. -/
def list_containers_pure (containers : List ContainerSummary) : List ContainerInfo :=
  containers.filterMap summary_to_info

/-- Models `docker.rs::list_containers` (lines 71-121), with the daemon's reply
passed in as `list_result`. -/
def list_containers (list_result : Except String (List ContainerSummary)) :
    Except String (List ContainerInfo) :=
  match list_result with
  | .error e => .error ("Failed to list containers: " ++ e)
  | .ok containers => .ok (list_containers_pure containers)

/-! ## Topology input model (bollard inspect types `docker.rs` reads) -/

/-- bollard `HealthStatusEnum`. -/
inductive HealthStatusEnum where
  | EMPTY
  | NONE
  | STARTING
  | HEALTHY
  | UNHEALTHY
deriving DecidableEq

/-- bollard `Health` (the field `docker.rs` reads). -/
structure Health where
  status : Option HealthStatusEnum
deriving DecidableEq

/-- bollard `ContainerState` (the fields `docker.rs` reads). -/
structure ContainerState where
  health : Option Health
  running : Option Bool
deriving DecidableEq

/-- bollard `EndpointSettings` (the field `docker.rs` reads). -/
structure EndpointSettings where
  ip_address : Option String
deriving DecidableEq

/-- bollard `NetworkSettings` (the fields `docker.rs` reads): the
per-network endpoint map as an association list, and the port map keys
(strings such as `"80/tcp"`; the values are never read). -/
structure NetworkSettings where
  networks : Option (List (String × EndpointSettings))
  ports : Option (List String)
deriving DecidableEq

/-- bollard `ContainerConfig` (the field `docker.rs` reads). -/
structure ContainerConfig where
  image : Option String
deriving DecidableEq

/-- bollard `ContainerInspectResponse` (the fields `docker.rs` reads). -/
structure ContainerInspectResponse where
  state : Option ContainerState
  network_settings : Option NetworkSettings
  config : Option ContainerConfig
deriving DecidableEq

/-! ## Topology output model (`docker.rs` lines 266-293) -/

/-- Models `docker.rs` `NetworkContainer`. The source's `cpu: f64` / `mem: u64`
placeholder loads are integral by construction (a character-code sum
modulo a constant), so both are modelled as `Nat`. -/
structure NetworkContainer where
  id : String
  name : String
  container_type : String
  networks : List String
  ip : String
  ports : String
  health : String
  cpu : Nat
  mem : Nat
deriving DecidableEq

/-- Models `docker.rs` `NetworkConnection`. The Rust fields `from` and `to` are
Lean keywords and are rendered `from_` and `to_`. -/
structure NetworkConnection where
  from_ : String
  to_ : String
  protocol : String
  network : String
deriving DecidableEq

/-- Models `docker.rs` `NetworkTopology`. -/
structure NetworkTopology where
  containers : List NetworkContainer
  connections : List NetworkConnection
deriving DecidableEq

/-! ## Topology construction (`docker.rs` lines 296-421) -/

/-- The `container_id` let-binding of the topology loop (line 311). -/
def summary_id (c : ContainerSummary) : String :=
  c.id.getD ""

/-- The `container_name` let-binding of the topology loop (lines
312-317): first reported name with leading slashes trimmed, defaulting
to the container id. -/
def summary_name (c : ContainerSummary) : String :=
  ((c.names.bind List.head?).map trim_slashes).getD (summary_id c)

/-- Health classification (`docker.rs` lines 329-343). -/
def health_of (state : Option ContainerState) : String :=
  match state.bind (fun s => s.health) with
  | some h =>
    match h.status with
    | some HealthStatusEnum.HEALTHY => "healthy"
    | some HealthStatusEnum.STARTING => "starting"
    | some HealthStatusEnum.UNHEALTHY => "unhealthy"
    | _ => "unknown"
  | none =>
    if (state.bind (fun s => s.running)).getD false then "healthy" else "stopped"

/-- Attached network names (`docker.rs` lines 345-350). -/
def networks_of (ns : Option NetworkSettings) : List String :=
  ((ns.bind (fun s => s.networks)).map (fun nets => nets.map (fun p => p.1))).getD []

/-- First endpoint's IP address (`docker.rs` lines 352-358). -/
def ip_of (ns : Option NetworkSettings) : String :=
  (((ns.bind (fun s => s.networks)).bind List.head?).bind
    (fun p => p.2.ip_address)).getD "N/A"

/-- Comma-joined exposed ports (`docker.rs` lines 360-372). -/
def ports_of (ns : Option NetworkSettings) : String :=
  (((ns.bind (fun s => s.ports)).map (fun keys =>
      join_sep "," (keys.map first_split_piece))).filter
    (fun s => !s.data.isEmpty)).getD "-"

/-- Role classification from the image identifier (`docker.rs` lines
374-389): the source lowercases the image and then matches substrings in
fixed precedence. -/
def classify_image (image : String) : String :=
  let img := lowercase image
  if str_contains img "nginx" then "gateway"
  else if str_contains img "php" then "app"
  else if str_contains img "mysql" || str_contains img "postgres"
      || str_contains img "mariadb" then "database"
  else if str_contains img "redis" || str_contains img "memcache" then "cache"
  else "other"

/-- The placeholder load number (`docker.rs` lines 391-393): sum of the
id's character codes. -/
def id_hash (id : String) : Nat :=
  (id.data.map Char.toNat).sum

/-- Node assembled by the topology loop (`docker.rs` lines 329-412). -/
def build_node (container_id container_name : String)
    (ins : ContainerInspectResponse) : NetworkContainer :=
  { id := container_id
    name := container_name
    container_type := classify_image ((ins.config.bind (fun c => c.image)).getD "")
    networks := networks_of ins.network_settings
    ip := ip_of ins.network_settings
    ports := ports_of ins.network_settings
    health := health_of ins.state
    cpu := id_hash container_id % 20
    mem := id_hash container_id % 2048 }

/-- Models `network_map.entry(k).or_insert_with(Vec::new).push(v)` on an
association list. -/
def assocPush (m : List (String × List String)) (k v : String) :
    List (String × List String) :=
  match m with
  | [] => [(k, [v])]
  | (k', vs) :: rest =>
    if k' == k then (k', vs ++ [v]) :: rest else (k', vs) :: assocPush rest k v

/-- The per-container loop of `get_network_topology` (`docker.rs` lines
310-413): accumulates nodes and the network-to-container-ids map,
aborting on the first inspect failure. -/
def topo_loop (inspect : String → Except String ContainerInspectResponse) :
    List ContainerSummary → List NetworkContainer → List (String × List String) →
    Except String (List NetworkContainer × List (String × List String))
  | [], acc, nm => .ok (acc, nm)
  | c :: rest, acc, nm =>
    let container_id := summary_id c
    let container_name := summary_name c
    if !(starts_with container_name "signalforge-") then
      topo_loop inspect rest acc nm
    else
      match inspect container_id with
      | .error e => .error ("Failed to inspect container: " ++ e)
      | .ok ins =>
        let node := build_node container_id container_name ins
        topo_loop inspect rest (acc ++ [node])
          (node.networks.foldl (fun m n => assocPush m n container_id) nm)

/-! ## Edge synthesis (`docker.rs` lines 424-493) -/

/-- The `gateways` filter of `infer_connections` (lines 431-434). -/
def gateways_on (containers : List NetworkContainer) (ids : List String) :
    List NetworkContainer :=
  containers.filter (fun c => ids.contains c.id && c.container_type == "gateway")

/-- The `apps` filter of `infer_connections` (lines 436-439). -/
def apps_on (containers : List NetworkContainer) (ids : List String) :
    List NetworkContainer :=
  containers.filter (fun c => ids.contains c.id && c.container_type == "app")

/-- The `databases` filter of `infer_connections` (lines 441-444). -/
def databases_on (containers : List NetworkContainer) (ids : List String) :
    List NetworkContainer :=
  containers.filter (fun c => ids.contains c.id && c.container_type == "database")

/-- The `caches` filter of `infer_connections` (lines 446-449). -/
def caches_on (containers : List NetworkContainer) (ids : List String) :
    List NetworkContainer :=
  containers.filter (fun c => ids.contains c.id && c.container_type == "cache")

/-- The database-edge protocol label (`docker.rs` lines 464-470), chosen
from the database container's *name*. -/
def db_protocol (db : NetworkContainer) : String :=
  if str_contains db.name "mysql" || str_contains db.name "mariadb" then "MySQL"
  else if str_contains db.name "postgres" then "PostgreSQL"
  else "Database"

/-- Edges contributed by one entry of the network map (`docker.rs` lines
430-490): the three cross-products, in source push order. -/
def edges_for (containers : List NetworkContainer)
    (entry : String × List String) : List NetworkConnection :=
  let network := entry.1
  let ids := entry.2
  let gateways := gateways_on containers ids
  let apps := apps_on containers ids
  let databases := databases_on containers ids
  let caches := caches_on containers ids
  (gateways.flatMap fun gateway =>
    apps.map fun app =>
      { from_ := gateway.id, to_ := app.id, protocol := "FastCGI", network := network })
  ++ (apps.flatMap fun app =>
    databases.map fun db =>
      { from_ := app.id, to_ := db.id, protocol := db_protocol db, network := network })
  ++ (apps.flatMap fun app =>
    caches.map fun cache =>
      { from_ := app.id, to_ := cache.id, protocol := "Redis", network := network })

/-- Models `docker.rs::infer_connections` (lines 424-493), over the network map
as an association list. -/
def infer_connections (containers : List NetworkContainer)
    (network_map : List (String × List String)) : List NetworkConnection :=
  network_map.flatMap (edges_for containers)

/-- Models `docker.rs::get_network_topology` (lines 296-421), with the daemon's
replies passed in as `list_result` and `inspect`. -/
def get_network_topology
    (list_result : Except String (List ContainerSummary))
    (inspect : String → Except String ContainerInspectResponse) :
    Except String NetworkTopology :=
  match list_result with
  | .error e => .error ("Failed to list containers: " ++ e)
  | .ok summaries =>
    match topo_loop inspect summaries [] [] with
    | .error e => .error e
    | .ok (containers, network_map) =>
      .ok { containers := containers
            connections := infer_connections containers network_map }

/-! ## Remaining DockerClient methods and the command layer
(`docker.rs` lines 123-213, `commands.rs`) -/

/-- Models `docker.rs` `DockerInfo`. -/
structure DockerInfo where
  containers_running : Int
  containers_paused : Int
  containers_stopped : Int
  images : Int
  docker_version : String
  os_type : String
  architecture : String
  memory_total : Int
  cpus : Int
deriving DecidableEq

/-- bollard `SystemInfo` (the fields `docker.rs` reads). -/
structure SystemInfo where
  containers_running : Option Int
  containers_paused : Option Int
  containers_stopped : Option Int
  images : Option Int
  server_version : Option String
  os_type : Option String
  architecture : Option String
  mem_total : Option Int
  ncpu : Option Int
deriving DecidableEq

/-- Models `docker.rs` `DockerClient`, with the daemon handle replaced by the
daemon's responses: each field is the reply the daemon would give to the
corresponding single request (the `stop`/`restart` oracles take the
grace period the source passes, and the logs oracle takes the tail
argument and yields the reply stream as a list). -/
structure DockerClient where
  list_result : Except String (List ContainerSummary)
  inspect : String → Except String ContainerInspectResponse
  stats_sample : String → Option (Except String Stats)
  start_result : String → Except String Unit
  stop_result : String → Nat → Except String Unit
  restart_result : String → Nat → Except String Unit
  logs_stream : String → Option Nat → List (Except String String)
  info_result : Except String SystemInfo

/-- Models `docker.rs::start_container` (lines 123-129). -/
def start_container (self : DockerClient) (id : String) : Except String Unit :=
  match self.start_result id with
  | .error e => .error ("Failed to start container: " ++ e)
  | .ok u => .ok u

/-- Models `docker.rs::stop_container` (lines 131-137); the source passes the
fixed grace period `t = 10`. -/
def stop_container (self : DockerClient) (id : String) : Except String Unit :=
  match self.stop_result id 10 with
  | .error e => .error ("Failed to stop container: " ++ e)
  | .ok u => .ok u

/-- Models `docker.rs::restart_container` (lines 139-145); the source passes
the fixed grace period `t = 10`. -/
def restart_container (self : DockerClient) (id : String) : Except String Unit :=
  match self.restart_result id 10 with
  | .error e => .error ("Failed to restart container: " ++ e)
  | .ok u => .ok u

/-- The while-let loop of `docker.rs::get_container_logs` (lines
158-171): collect stream items, aborting on the first error. -/
def logs_collect : List (Except String String) → List String → Except String (List String)
  | [], acc => .ok acc
  | .ok line :: rest, acc => logs_collect rest (acc ++ [line])
  | .error e :: _, _ => .error ("Failed to get logs: " ++ e)

/-- Models `docker.rs::get_container_logs` (lines 147-174). -/
def get_container_logs (self : DockerClient) (id : String) (tail : Option Nat) :
    Except String (List String) :=
  logs_collect (self.logs_stream id tail) []

/-- Models `docker.rs::get_container_stats` (lines 176-192): the one-shot
stream yields at most one sample; no sample at all is the dedicated
`"No stats available"` error. -/
def get_container_stats (self : DockerClient) (id : String) :
    Except String ContainerStats :=
  match self.stats_sample id with
  | some (.error e) => .error ("Failed to get stats: " ++ e)
  | some (.ok stats) => .ok (calculate_stats stats)
  | none => .error "No stats available"

/-- Models `docker.rs::get_docker_info` (lines 194-213). -/
def get_docker_info (self : DockerClient) : Except String DockerInfo :=
  match self.info_result with
  | .error e => .error ("Failed to get Docker info: " ++ e)
  | .ok info =>
    .ok { containers_running := info.containers_running.getD 0
          containers_paused := info.containers_paused.getD 0
          containers_stopped := info.containers_stopped.getD 0
          images := info.images.getD 0
          docker_version := info.server_version.getD ""
          os_type := info.os_type.getD ""
          architecture := info.architecture.getD ""
          memory_total := info.mem_total.getD 0
          cpus := info.ncpu.getD 0 }

/-- Models `commands.rs::AppState::new` (lines 10-17): the state starts as the
(possibly failed) automatic connection attempt, `DockerClient::new().ok()`. -/
def app_state_new (new_result : Except String DockerClient) : Option DockerClient :=
  new_result.toOption

/-- Models `commands.rs::check_docker_connection` (lines 19-23). -/
def cmd_check_docker_connection (st : Option DockerClient) : Except String Bool :=
  .ok st.isSome

/-- Models `commands.rs::list_containers` (lines 37-44). -/
def cmd_list_containers (st : Option DockerClient) :
    Except String (List ContainerInfo) :=
  match st with
  | some client => list_containers client.list_result
  | none => .error "Docker is not connected"

/-- Models `commands.rs::start_container` (lines 46-53). -/
def cmd_start_container (id : String) (st : Option DockerClient) :
    Except String Unit :=
  match st with
  | some client => start_container client id
  | none => .error "Docker is not connected"

/-- Models `commands.rs::stop_container` (lines 55-62). -/
def cmd_stop_container (id : String) (st : Option DockerClient) :
    Except String Unit :=
  match st with
  | some client => stop_container client id
  | none => .error "Docker is not connected"

/-- Models `commands.rs::restart_container` (lines 64-71). -/
def cmd_restart_container (id : String) (st : Option DockerClient) :
    Except String Unit :=
  match st with
  | some client => restart_container client id
  | none => .error "Docker is not connected"

/-- Models `commands.rs::get_container_stats` (lines 73-83). -/
def cmd_get_container_stats (id : String) (st : Option DockerClient) :
    Except String ContainerStats :=
  match st with
  | some client => get_container_stats client id
  | none => .error "Docker is not connected"

/-- Models `commands.rs::get_container_logs` (lines 85-96). -/
def cmd_get_container_logs (id : String) (tail : Option Nat)
    (st : Option DockerClient) : Except String (List String) :=
  match st with
  | some client => get_container_logs client id tail
  | none => .error "Docker is not connected"

/-- Models `commands.rs::get_docker_info` (lines 98-105). -/
def cmd_get_docker_info (st : Option DockerClient) : Except String DockerInfo :=
  match st with
  | some client => get_docker_info client
  | none => .error "Docker is not connected"

/-- Models `commands.rs::get_network_topology` (lines 107-114). -/
def cmd_get_network_topology (st : Option DockerClient) :
    Except String NetworkTopology :=
  match st with
  | some client => get_network_topology client.list_result client.inspect
  | none => .error "Docker is not connected"

/-! ## Lock-event traces for `get_network_topology`

`get_network_topology` (`docker.rs` line 297) acquires the connection
mutex once — `let docker = self.client.lock().await;` — and the guard is
dropped only when the function returns, on success or on the `?` early
return alike. The trace below records, in order, the gate events and the
daemon requests the method issues. -/

/-- One lock or daemon-request event. -/
inductive DaemonEvent where
  | acquire
  | release
  | listReq
  | inspectReq (id : String)
deriving DecidableEq

/-- Daemon requests issued by the per-container loop of
`get_network_topology`: one inspect per managed container, stopping
after a failed inspect (the `?` early return). -/
def topo_loop_trace (inspect : String → Except String ContainerInspectResponse) :
    List ContainerSummary → List DaemonEvent
  | [] => []
  | c :: rest =>
    if !(starts_with (summary_name c) "signalforge-") then
      topo_loop_trace inspect rest
    else
      DaemonEvent.inspectReq (summary_id c) ::
        match inspect (summary_id c) with
        | .error _ => []
        | .ok _ => topo_loop_trace inspect rest

/-- The full lock/request trace of one `get_network_topology` call whose
list request succeeds: the gate is taken once, the list request and
every inspect happen under that single hold, and the guard drops at
return. -/
def get_network_topology_trace (summaries : List ContainerSummary)
    (inspect : String → Except String ContainerInspectResponse) :
    List DaemonEvent :=
  DaemonEvent.acquire :: DaemonEvent.listReq ::
    (topo_loop_trace inspect summaries ++ [DaemonEvent.release])

/-- Modelled from the spec: the §5 gate discipline the claim asserts —
the gate is acquired before each single daemon request and released
immediately after that request completes, for every request in the
trace. -/
def per_request_gate : List DaemonEvent → Bool
  | [] => true
  | DaemonEvent.acquire :: DaemonEvent.listReq :: DaemonEvent.release :: rest =>
    per_request_gate rest
  | DaemonEvent.acquire :: DaemonEvent.inspectReq _ :: DaemonEvent.release :: rest =>
    per_request_gate rest
  | _ => false

/-! ## Concrete inputs used by witnesses and counterexamples -/

/-- A concrete one-shot stats sample: totals 100 → 200, system
1000 → 2000, 4 online CPUs, 512 MB used of a 1024 MB limit. -/
def statsEx : Stats :=
  { cpu_stats :=
      { cpu_usage := { total_usage := 200 }
        system_cpu_usage := some 2000
        online_cpus := some 4 }
    precpu_stats :=
      { cpu_usage := { total_usage := 100 }
        system_cpu_usage := some 1000
        online_cpus := none }
    memory_stats := { usage := some 512000000, limit := some 1024000000 }
    networks := some [("eth0", { rx_bytes := 10, tx_bytes := 20 })] }

/-- A client whose daemon returns no stats sample for any id. -/
def clientNoStats : DockerClient :=
  { list_result := .ok []
    inspect := fun _ => .error "unused"
    stats_sample := fun _ => none
    start_result := fun _ => .ok ()
    stop_result := fun _ _ => .ok ()
    restart_result := fun _ _ => .ok ()
    logs_stream := fun _ _ => []
    info_result := .error "unused" }

/-! ## C1: CPU percentage derivation -/

/-- C1: for every stats snapshot pair, the derived `cpuPercent` equals
`(cpuDelta / systemDelta) * onlineCpuCount * 100` when both deltas are
strictly positive, and `0` otherwise, with the defaults of the claim
(unreported system usage counts as 0, unreported CPU count as 1). -/
theorem cpu_percent_spec (s : Stats) :
    (0 < cpuDelta s ∧ 0 < systemDelta s →
      calculate_cpu_percent s = cpuDelta s / systemDelta s * onlineCpus s * 100) ∧
    (¬(0 < cpuDelta s ∧ 0 < systemDelta s) → calculate_cpu_percent s = 0) := by
  constructor
  · rintro ⟨h1, h2⟩
    show (if 0 < systemDelta s ∧ 0 < cpuDelta s then
        cpuDelta s / systemDelta s * onlineCpus s * 100 else 0) = _
    rw [if_pos ⟨h2, h1⟩]
  · intro h
    show (if 0 < systemDelta s ∧ 0 < cpuDelta s then
        cpuDelta s / systemDelta s * onlineCpus s * 100 else 0) = 0
    exact if_neg (fun hc => h ⟨hc.2, hc.1⟩)

/-- Witness for C1: on `statsEx` both deltas are positive and the
formula applies. -/
theorem cpu_percent_spec_witness :
    0 < cpuDelta statsEx ∧ 0 < systemDelta statsEx ∧
    calculate_cpu_percent statsEx =
      cpuDelta statsEx / systemDelta statsEx * onlineCpus statsEx * 100 := by
  have h1 : 0 < cpuDelta statsEx := by norm_num [cpuDelta, statsEx]
  have h2 : 0 < systemDelta statsEx := by norm_num [systemDelta, statsEx]
  exact ⟨h1, h2, (cpu_percent_spec statsEx).1 ⟨h1, h2⟩⟩

/-! ## C4: memory percentage derivation -/

/-- C4: `memoryPercent` is `100 * memoryUsage / memoryLimit` when the
limit is positive and `0` when the limit is zero; it is never negative
(the division is guarded), and an unreported limit defaults to 1. -/
theorem memory_percent_spec (s : Stats) :
    (0 < (calculate_stats s).memory_limit →
      (calculate_stats s).memory_percent =
        100 * ((calculate_stats s).memory_usage : ℚ) /
          ((calculate_stats s).memory_limit : ℚ)) ∧
    ((calculate_stats s).memory_limit = 0 → (calculate_stats s).memory_percent = 0) ∧
    0 ≤ (calculate_stats s).memory_percent ∧
    (s.memory_stats.limit = none → (calculate_stats s).memory_limit = 1) := by
  have hl : (calculate_stats s).memory_limit = s.memory_stats.limit.getD 1 := rfl
  have hu : (calculate_stats s).memory_usage = s.memory_stats.usage.getD 0 := rfl
  have hp : (calculate_stats s).memory_percent =
      if 0 < s.memory_stats.limit.getD 1 then
        ((s.memory_stats.usage.getD 0 : ℚ) / (s.memory_stats.limit.getD 1 : ℚ)) * 100
      else 0 := rfl
  refine ⟨?_, ?_, ?_, ?_⟩
  · intro h
    rw [hl] at h
    rw [hp, if_pos h, hl, hu]
    ring
  · intro h
    rw [hl] at h
    rw [hp, h]
    simp
  · rw [hp]
    split_ifs with h
    · positivity
    · exact le_refl 0
  · intro h
    rw [hl, h]
    rfl

/-- Witness for C4: on `statsEx` the limit is positive and the invariant
formula applies (512000000 of 1024000000 bytes). -/
theorem memory_percent_spec_witness :
    0 < (calculate_stats statsEx).memory_limit ∧
    (calculate_stats statsEx).memory_percent =
      100 * ((calculate_stats statsEx).memory_usage : ℚ) /
        ((calculate_stats statsEx).memory_limit : ℚ) := by
  have h : 0 < (calculate_stats statsEx).memory_limit := by decide
  exact ⟨h, (memory_percent_spec statsEx).1 h⟩

/-! ## C8: operations before a connection exists -/

/-- Counterexample for C8: with no connection, `listContainers` fails
with `Error("Docker is not connected")`, not with the claimed
`Error("runtime not connected")`. -/
theorem not_connected_message_counterexample :
    cmd_list_containers none = .error "Docker is not connected" ∧
    cmd_list_containers none ≠ .error "runtime not connected" := by
  constructor
  · rfl
  · intro h
    have h' : (Except.error "Docker is not connected" :
        Except String (List ContainerInfo)) = Except.error "runtime not connected" := h
    have h2 : ("Docker is not connected" : String) = "runtime not connected" := by
      injection h'
    exact absurd h2 (by decide)

/-- C8 (amended): every exposed operation invoked while no client handle
exists fails with `Error("Docker is not connected")`. -/
theorem commands_require_connection (id : String) (tail : Option Nat) :
    cmd_list_containers none = .error "Docker is not connected" ∧
    cmd_start_container id none = .error "Docker is not connected" ∧
    cmd_stop_container id none = .error "Docker is not connected" ∧
    cmd_restart_container id none = .error "Docker is not connected" ∧
    cmd_get_container_stats id none = .error "Docker is not connected" ∧
    cmd_get_container_logs id tail none = .error "Docker is not connected" ∧
    cmd_get_docker_info none = .error "Docker is not connected" ∧
    cmd_get_network_topology none = .error "Docker is not connected" :=
  ⟨rfl, rfl, rfl, rfl, rfl, rfl, rfl, rfl⟩

/-- Witness for C8 (amended): a disconnected `stopContainer` call on a
concrete id fails with the not-connected error. -/
theorem commands_require_connection_witness :
    cmd_stop_container "c1" none = .error "Docker is not connected" :=
  (commands_require_connection "c1" none).2.2.1

/-! ## C9: stats query with no sample -/

/-- Counterexample for C9: when the daemon yields no sample the result
is `Error("No stats available")` — capitalised — not the claimed
`Error("no stats available")`. -/
theorem stats_error_message_counterexample :
    cmd_get_container_stats "abc" (some clientNoStats) = .error "No stats available" ∧
    cmd_get_container_stats "abc" (some clientNoStats) ≠ .error "no stats available" := by
  constructor
  · rfl
  · intro h
    have h' : (Except.error "No stats available" :
        Except String ContainerStats) = Except.error "no stats available" := h
    have h2 : ("No stats available" : String) = "no stats available" := by
      injection h'
    exact absurd h2 (by decide)

/-- C9 (amended): when the daemon returns no sample for the queried id,
`getContainerStats` fails with exactly `Error("No stats available")`. -/
theorem stats_none_gives_no_stats_error (client : DockerClient) (id : String)
    (h : client.stats_sample id = none) :
    cmd_get_container_stats id (some client) = .error "No stats available" := by
  simp [cmd_get_container_stats, get_container_stats, h]

/-- Witness for C9 (amended): the no-sample client at a concrete id. -/
theorem stats_none_gives_no_stats_error_witness :
    clientNoStats.stats_sample "abc" = none ∧
    cmd_get_container_stats "abc" (some clientNoStats) = .error "No stats available" :=
  ⟨rfl, stats_none_gives_no_stats_error clientNoStats "abc" rfl⟩

/-! ## C3: role classification -/

/-- All outcomes of the five-way classification chain, by exhaustive
case analysis on the substring tests. -/
lemma classify_chain_cases (b1 b2 b3 b4 b5 b6 b7 : Bool) :
    ((if b1 then "gateway" else if b2 then "app"
      else if b3 || b4 || b5 then "database"
      else if b6 || b7 then "cache" else "other") = "gateway" ↔ b1 = true) ∧
    ((if b1 then "gateway" else if b2 then "app"
      else if b3 || b4 || b5 then "database"
      else if b6 || b7 then "cache" else "other") = "app" ↔
      (b1 = false ∧ b2 = true)) ∧
    ((if b1 then "gateway" else if b2 then "app"
      else if b3 || b4 || b5 then "database"
      else if b6 || b7 then "cache" else "other") = "database" ↔
      (b1 = false ∧ b2 = false ∧ (b3 || b4 || b5) = true)) ∧
    ((if b1 then "gateway" else if b2 then "app"
      else if b3 || b4 || b5 then "database"
      else if b6 || b7 then "cache" else "other") = "cache" ↔
      (b1 = false ∧ b2 = false ∧ (b3 || b4 || b5) = false ∧ (b6 || b7) = true)) ∧
    ((if b1 then "gateway" else if b2 then "app"
      else if b3 || b4 || b5 then "database"
      else if b6 || b7 then "cache" else "other") = "other" ↔
      (b1 = false ∧ b2 = false ∧ (b3 || b4 || b5) = false ∧ (b6 || b7) = false)) := by
  cases b1 <;> cases b2 <;> cases b3 <;> cases b4 <;> cases b5 <;>
    cases b6 <;> cases b7 <;> decide

/-- C3: role classification is a total function of the image string
alone; after lowercasing, the five roles are characterised exactly by
the claim's first-match-wins substring precedence. -/
theorem classify_image_spec (img : String) :
    (classify_image img = "gateway" ↔
      str_contains (lowercase img) "nginx" = true) ∧
    (classify_image img = "app" ↔
      (str_contains (lowercase img) "nginx" = false ∧
        str_contains (lowercase img) "php" = true)) ∧
    (classify_image img = "database" ↔
      (str_contains (lowercase img) "nginx" = false ∧
        str_contains (lowercase img) "php" = false ∧
        (str_contains (lowercase img) "mysql" ||
          str_contains (lowercase img) "postgres" ||
          str_contains (lowercase img) "mariadb") = true)) ∧
    (classify_image img = "cache" ↔
      (str_contains (lowercase img) "nginx" = false ∧
        str_contains (lowercase img) "php" = false ∧
        (str_contains (lowercase img) "mysql" ||
          str_contains (lowercase img) "postgres" ||
          str_contains (lowercase img) "mariadb") = false ∧
        (str_contains (lowercase img) "redis" ||
          str_contains (lowercase img) "memcache") = true)) ∧
    (classify_image img = "other" ↔
      (str_contains (lowercase img) "nginx" = false ∧
        str_contains (lowercase img) "php" = false ∧
        (str_contains (lowercase img) "mysql" ||
          str_contains (lowercase img) "postgres" ||
          str_contains (lowercase img) "mariadb") = false ∧
        (str_contains (lowercase img) "redis" ||
          str_contains (lowercase img) "memcache") = false)) := by
  simp only [classify_image]
  exact classify_chain_cases _ _ _ _ _ _ _

/-- Witness for C3: the gateway characterisation applied to
`"NGINX:latest"`. -/
theorem classify_image_spec_witness :
    classify_image "NGINX:latest" = "gateway" :=
  (classify_image_spec "NGINX:latest").1.mpr (by decide)

/-! ## C5: only managed containers are listed -/

/-- A daemon container list entry whose name lacks the managed prefix. -/
def myappSummary : ContainerSummary :=
  { id := some "abc123"
    names := some ["/myapp-nginx"]
    image := some "nginx:latest"
    status := some "Up 2 hours"
    state := some "running"
    created := some 1700000000
    ports := some [] }

/-- A daemon container list entry carrying the managed prefix. -/
def sfSummary : ContainerSummary :=
  { id := some "aaa"
    names := some ["/signalforge-nginx"]
    image := some "nginx:latest"
    status := some "Up"
    state := some "running"
    created := some 0
    ports := some [] }

/-- C5: every record returned by `listContainers` has a name starting
with `"signalforge-"`, and a daemon reporting only the unmanaged
`"myapp-nginx"` yields the empty list. -/
theorem list_containers_prefix_spec :
    (∀ (lr : Except String (List ContainerSummary)) (infos : List ContainerInfo),
      list_containers lr = .ok infos →
      ∀ info ∈ infos, starts_with info.name "signalforge-" = true) ∧
    list_containers (.ok [myappSummary]) = .ok [] := by
  constructor
  · intro lr infos hok info hmem
    cases lr with
    | error e => simp [list_containers] at hok
    | ok cs =>
      simp only [list_containers, Except.ok.injEq] at hok
      subst hok
      rw [list_containers_pure, List.mem_filterMap] at hmem
      obtain ⟨c, _, hc⟩ := hmem
      simp only [summary_to_info] at hc
      split at hc
      · exact absurd hc (by simp)
      · rename_i hcond
        obtain rfl := Option.some.inj hc
        simpa using hcond
  · rfl

/-- Witness for C5: the prefix property applied to the concrete output
for a managed container. -/
theorem list_containers_prefix_spec_witness :
    ∃ infos, list_containers (.ok [sfSummary]) = .ok infos ∧
      ∀ info ∈ infos, starts_with info.name "signalforge-" = true := by
  refine ⟨list_containers_pure [sfSummary], rfl, ?_⟩
  intro info hmem
  exact list_containers_prefix_spec.1 (.ok [sfSummary]) _ rfl info hmem

/-! ## C2: edge synthesis is the per-network cross-product -/

/-- Length of a two-level cross-product: pairing every element of `l1`
with every element of `l2` yields `l1.length * l2.length` items. -/
lemma length_flatMap_map {α β γ : Type} (l1 : List α) (l2 : List β) (g : α → β → γ) :
    (l1.flatMap fun a => l2.map (g a)).length = l1.length * l2.length := by
  induction l1 with
  | nil => simp
  | cons a t ih =>
    simp only [List.flatMap_cons, List.length_append, List.length_map, ih,
      List.length_cons]
    rw [Nat.succ_mul, Nat.add_comm]

/-- C2: the synthesized edge list is exactly the per-network
cross-product — for the head network entry it is the `FastCGI`
gateway×app edges, then the app×database edges labelled by the
database-name substring rule, then the `Redis` app×cache edges, followed
by the remaining entries' edges; and a single network entry contributes
exactly `G*A + A*D + A*C` edges. -/
theorem infer_connections_spec (containers : List NetworkContainer)
    (network : String) (ids : List String) (rest : List (String × List String)) :
    infer_connections containers ((network, ids) :: rest) =
      ((gateways_on containers ids).flatMap fun gateway =>
        (apps_on containers ids).map fun app =>
          { from_ := gateway.id, to_ := app.id, protocol := "FastCGI",
            network := network })
      ++ ((apps_on containers ids).flatMap fun app =>
        (databases_on containers ids).map fun db =>
          { from_ := app.id, to_ := db.id,
            protocol :=
              if str_contains db.name "mysql" || str_contains db.name "mariadb" then
                "MySQL"
              else if str_contains db.name "postgres" then "PostgreSQL"
              else "Database",
            network := network })
      ++ ((apps_on containers ids).flatMap fun app =>
        (caches_on containers ids).map fun cache =>
          { from_ := app.id, to_ := cache.id, protocol := "Redis",
            network := network })
      ++ infer_connections containers rest ∧
    (infer_connections containers [(network, ids)]).length =
      (gateways_on containers ids).length * (apps_on containers ids).length
      + (apps_on containers ids).length * (databases_on containers ids).length
      + (apps_on containers ids).length * (caches_on containers ids).length := by
  constructor
  · rw [infer_connections, List.flatMap_cons]
    rfl
  · have h1 : infer_connections containers [(network, ids)] =
        edges_for containers (network, ids) := by
      simp [infer_connections]
    rw [h1]
    simp only [edges_for]
    rw [List.length_append, List.length_append, length_flatMap_map,
      length_flatMap_map, length_flatMap_map]

/-! ## C7: topology aborts on the first inspect failure -/

/-- If some managed container in the remaining worklist has a failing
inspect, the topology loop ends in an error. -/
lemma topo_loop_error_of_inspect_error
    (inspect : String → Except String ContainerInspectResponse)
    (s : ContainerSummary) (e : String)
    (hname : starts_with (summary_name s) "signalforge-" = true)
    (herr : inspect (summary_id s) = .error e) :
    ∀ (l : List ContainerSummary) (acc : List NetworkContainer)
      (nm : List (String × List String)),
      s ∈ l → ∃ e', topo_loop inspect l acc nm = .error e' := by
  intro l
  induction l with
  | nil =>
    intro acc nm hmem
    exact absurd hmem (List.not_mem_nil s)
  | cons c rest ih =>
    intro acc nm hmem
    rcases List.mem_cons.mp hmem with heq | htail
    · subst heq
      refine ⟨"Failed to inspect container: " ++ e, ?_⟩
      simp [topo_loop, hname, herr]
    · by_cases hc : starts_with (summary_name c) "signalforge-" = true
      · cases hins : inspect (summary_id c) with
        | error e2 =>
          refine ⟨"Failed to inspect container: " ++ e2, ?_⟩
          simp [topo_loop, hc, hins]
        | ok ins =>
          obtain ⟨e', h'⟩ :=
            ih (acc ++ [build_node (summary_id c) (summary_name c) ins])
              ((build_node (summary_id c) (summary_name c) ins).networks.foldl
                (fun m n => assocPush m n (summary_id c)) nm) htail
          refine ⟨e', ?_⟩
          simp only [topo_loop, hc, hins]
          simpa using h'
      · obtain ⟨e', h'⟩ := ih acc nm htail
        refine ⟨e', ?_⟩
        simp only [topo_loop]
        simp only [Bool.not_eq_true] at hc
        simp [hc]
        exact h'

/-- C7: if inspecting any single managed container fails during
`getNetworkTopology`, the whole operation returns an error — no partial
topology is ever produced. -/
theorem topology_aborts_on_inspect_failure
    (summaries : List ContainerSummary)
    (inspect : String → Except String ContainerInspectResponse)
    (s : ContainerSummary) (e : String)
    (hmem : s ∈ summaries)
    (hname : starts_with (summary_name s) "signalforge-" = true)
    (herr : inspect (summary_id s) = .error e) :
    ∃ e', get_network_topology (.ok summaries) inspect = .error e' := by
  obtain ⟨e', h'⟩ :=
    topo_loop_error_of_inspect_error inspect s e hname herr summaries [] [] hmem
  exact ⟨e', by simp [get_network_topology, h']⟩

/-- A managed container whose inspect will fail. -/
def failSummary : ContainerSummary :=
  { id := some "zzz"
    names := some ["/signalforge-db"]
    image := some "mysql:8"
    status := some "Up"
    state := some "running"
    created := some 0
    ports := some [] }

/-- Witness for C7: a daemon whose inspect always fails makes the whole
topology call fail. -/
theorem topology_aborts_on_inspect_failure_witness :
    ∃ e', get_network_topology (.ok [failSummary])
      (fun _ => Except.error "no such container") = .error e' :=
  topology_aborts_on_inspect_failure [failSummary]
    (fun _ => Except.error "no such container") failSummary "no such container"
    (List.mem_singleton.mpr rfl) (by decide) rfl

/-! ## C6: every edge joins two nodes sharing its network -/

/-- The network map is consistent with a node list when every id
recorded under a network belongs to some node attached to that
network. -/
def nm_consistent (cs : List NetworkContainer)
    (nm : List (String × List String)) : Prop :=
  ∀ p ∈ nm, ∀ id ∈ p.2, ∃ c ∈ cs, c.id = id ∧ p.1 ∈ c.networks

/-- Consistency is preserved when the node list grows. -/
lemma nm_consistent_mono {cs cs' : List NetworkContainer}
    {nm : List (String × List String)}
    (h : nm_consistent cs nm) (hsub : ∀ c ∈ cs, c ∈ cs') :
    nm_consistent cs' nm := by
  intro p hp id hid
  obtain ⟨c, hc, h1, h2⟩ := h p hp id hid
  exact ⟨c, hsub c hc, h1, h2⟩

/-- Every id under an entry of `assocPush m k v` was already recorded
under the same network in `m`, or is the freshly pushed `v` under `k`. -/
lemma assocPush_cases {m : List (String × List String)} {k v : String} :
    ∀ q ∈ assocPush m k v, ∀ id ∈ q.2,
      (∃ p ∈ m, p.1 = q.1 ∧ id ∈ p.2) ∨ (q.1 = k ∧ id = v) := by
  induction m with
  | nil =>
    intro q hq id hid
    simp only [assocPush, List.mem_singleton] at hq
    subst hq
    simp only [List.mem_singleton] at hid
    exact Or.inr ⟨rfl, hid⟩
  | cons p0 rest ih =>
    obtain ⟨k', vs⟩ := p0
    intro q hq id hid
    simp only [assocPush] at hq
    split at hq
    · rename_i hbeq
      rcases List.mem_cons.mp hq with rfl | hq'
      · rcases List.mem_append.mp hid with hid' | hid'
        · exact Or.inl ⟨(k', vs), List.mem_cons_self _ _, rfl, hid'⟩
        · simp only [List.mem_singleton] at hid'
          exact Or.inr ⟨eq_of_beq hbeq, hid'⟩
      · exact Or.inl ⟨q, List.mem_cons_of_mem _ hq', rfl, hid⟩
    · rcases List.mem_cons.mp hq with rfl | hq'
      · exact Or.inl ⟨(k', vs), List.mem_cons_self _ _, rfl, hid⟩
      · rcases ih q hq' id hid with ⟨p, hp, h1, h2⟩ | hkv
        · exact Or.inl ⟨p, List.mem_cons_of_mem _ hp, h1, h2⟩
        · exact Or.inr hkv

/-- Pushing the id of a node attached to `net` preserves consistency. -/
lemma nm_consistent_assocPush {cs : List NetworkContainer}
    {nm : List (String × List String)} (h : nm_consistent cs nm)
    (c : NetworkContainer) (hc : c ∈ cs) (net : String)
    (hnet : net ∈ c.networks) :
    nm_consistent cs (assocPush nm net c.id) := by
  intro q hq id hid
  rcases assocPush_cases q hq id hid with ⟨p, hp, hfst, hid'⟩ | ⟨hq1, hidv⟩
  · obtain ⟨c', hc', hcid, hcnet⟩ := h p hp id hid'
    exact ⟨c', hc', hcid, hfst ▸ hcnet⟩
  · exact ⟨c, hc, hidv.symm, hq1 ▸ hnet⟩

/-- Folding a node's networks into the map preserves consistency. -/
lemma nm_consistent_fold (cs : List NetworkContainer)
    (c : NetworkContainer) (hc : c ∈ cs) :
    ∀ (nets : List String) (nm : List (String × List String)),
      nm_consistent cs nm → (∀ n ∈ nets, n ∈ c.networks) →
      nm_consistent cs (nets.foldl (fun m n => assocPush m n c.id) nm) := by
  intro nets
  induction nets with
  | nil =>
    intro nm h _
    simpa using h
  | cons n t ih =>
    intro nm h hsub
    simp only [List.foldl_cons]
    exact ih _ (nm_consistent_assocPush h c hc n (hsub n (List.mem_cons_self n t)))
      (fun x hx => hsub x (List.mem_cons_of_mem n hx))

/-- The topology loop preserves map consistency and only grows the node
list. -/
lemma topo_loop_consistent
    (inspect : String → Except String ContainerInspectResponse) :
    ∀ (l : List ContainerSummary) (acc : List NetworkContainer)
      (nm : List (String × List String)) (acc' : List NetworkContainer)
      (nm' : List (String × List String)),
      topo_loop inspect l acc nm = .ok (acc', nm') →
      nm_consistent acc nm →
      (∀ c ∈ acc, c ∈ acc') ∧ nm_consistent acc' nm' := by
  intro l
  induction l with
  | nil =>
    intro acc nm acc' nm' hok h
    simp only [topo_loop, Except.ok.injEq, Prod.mk.injEq] at hok
    obtain ⟨rfl, rfl⟩ := hok
    exact ⟨fun c hc => hc, h⟩
  | cons c rest ih =>
    intro acc nm acc' nm' hok h
    simp only [topo_loop] at hok
    split at hok
    · exact ih acc nm acc' nm' hok h
    · split at hok
      · exact absurd hok (by simp)
      · rename_i ins hins
        have hmemnode :
            build_node (summary_id c) (summary_name c) ins ∈
              acc ++ [build_node (summary_id c) (summary_name c) ins] :=
          List.mem_append_right _ (List.mem_singleton.mpr rfl)
        have h2 : nm_consistent
            (acc ++ [build_node (summary_id c) (summary_name c) ins])
            ((build_node (summary_id c) (summary_name c) ins).networks.foldl
              (fun m n => assocPush m n (summary_id c)) nm) := by
          have hbase : nm_consistent
              (acc ++ [build_node (summary_id c) (summary_name c) ins]) nm :=
            nm_consistent_mono h (fun x hx => List.mem_append_left _ hx)
          have := nm_consistent_fold _ _ hmemnode
            (build_node (summary_id c) (summary_name c) ins).networks nm hbase
            (fun _ hn => hn)
          simpa using this
        obtain ⟨hsub', hcons'⟩ := ih _ _ acc' nm' hok h2
        exact ⟨fun x hx => hsub' x (List.mem_append_left _ hx), hcons'⟩

/-- Unpacking membership in one of the role filters of
`infer_connections`. -/
lemma filter_role_facts {containers : List NetworkContainer} {ids : List String}
    {role : String} {c : NetworkContainer}
    (h : c ∈ containers.filter
      (fun x => ids.contains x.id && x.container_type == role)) :
    c ∈ containers ∧ c.id ∈ ids ∧ c.container_type = role := by
  rw [List.mem_filter] at h
  obtain ⟨h1, h2⟩ := h
  rw [Bool.and_eq_true] at h2
  exact ⟨h1, List.elem_iff.mp h2.1, by simpa using h2.2⟩

/-- Every synthesized connection comes from one network-map entry: both
endpoint ids are recorded under that entry, both endpoints are nodes of
one of the three qualifying role pairs, and the edge is labelled with
that entry's network. -/
lemma mem_infer_connections {containers : List NetworkContainer}
    {nm : List (String × List String)} {conn : NetworkConnection}
    (h : conn ∈ infer_connections containers nm) :
    ∃ p ∈ nm, conn.network = p.1 ∧
      ∃ cf ∈ containers, ∃ ct ∈ containers,
        cf.id = conn.from_ ∧ ct.id = conn.to_ ∧
        cf.id ∈ p.2 ∧ ct.id ∈ p.2 ∧
        cf.container_type ≠ "other" ∧ ct.container_type ≠ "other" := by
  rw [infer_connections, List.mem_flatMap] at h
  obtain ⟨p, hp, hconn⟩ := h
  refine ⟨p, hp, ?_⟩
  simp only [edges_for] at hconn
  rcases List.mem_append.mp hconn with hconn' | hcache
  · rcases List.mem_append.mp hconn' with hgw | hdb
    · rw [List.mem_flatMap] at hgw
      obtain ⟨g, hg, hmap⟩ := hgw
      rw [List.mem_map] at hmap
      obtain ⟨a, ha, heq⟩ := hmap
      obtain ⟨hgmem, hgin, hgty⟩ := filter_role_facts hg
      obtain ⟨hamem, hain, haty⟩ := filter_role_facts ha
      subst heq
      exact ⟨rfl, g, hgmem, a, hamem, rfl, rfl, hgin, hain,
        by simp [hgty], by simp [haty]⟩
    · rw [List.mem_flatMap] at hdb
      obtain ⟨a, ha, hmap⟩ := hdb
      rw [List.mem_map] at hmap
      obtain ⟨d, hd, heq⟩ := hmap
      obtain ⟨hamem, hain, haty⟩ := filter_role_facts ha
      obtain ⟨hdmem, hdin, hdty⟩ := filter_role_facts hd
      subst heq
      exact ⟨rfl, a, hamem, d, hdmem, rfl, rfl, hain, hdin,
        by simp [haty], by simp [hdty]⟩
  · rw [List.mem_flatMap] at hcache
    obtain ⟨a, ha, hmap⟩ := hcache
    rw [List.mem_map] at hmap
    obtain ⟨c, hc, heq⟩ := hmap
    obtain ⟨hamem, hain, haty⟩ := filter_role_facts ha
    obtain ⟨hcmem, hcin, hcty⟩ := filter_role_facts hc
    subst heq
    exact ⟨rfl, a, hamem, c, hcmem, rfl, rfl, hain, hcin,
      by simp [haty], by simp [hcty]⟩

/-- C6: in every successful topology result with pairwise-distinct node
ids, every edge joins two nodes that are both attached to the edge's
network, and never a node classified `other`. -/
theorem topology_edges_share_network
    (lr : Except String (List ContainerSummary))
    (inspect : String → Except String ContainerInspectResponse)
    (topo : NetworkTopology)
    (hok : get_network_topology lr inspect = .ok topo)
    (hnodup : (topo.containers.map (fun c => c.id)).Nodup) :
    ∀ conn ∈ topo.connections,
      ∃ cf ∈ topo.containers, ∃ ct ∈ topo.containers,
        cf.id = conn.from_ ∧ ct.id = conn.to_ ∧
        conn.network ∈ cf.networks ∧ conn.network ∈ ct.networks ∧
        cf.container_type ≠ "other" ∧ ct.container_type ≠ "other" := by
  cases lr with
  | error e => simp [get_network_topology] at hok
  | ok summaries =>
    simp only [get_network_topology] at hok
    cases hloop : topo_loop inspect summaries [] [] with
    | error e =>
      rw [hloop] at hok
      exact absurd hok (by simp)
    | ok pr =>
      obtain ⟨cs, nm⟩ := pr
      rw [hloop] at hok
      simp only [Except.ok.injEq] at hok
      subst hok
      obtain ⟨hsub, hcons⟩ := topo_loop_consistent inspect summaries [] [] cs nm
        hloop (fun p hp => absurd hp (List.not_mem_nil p))
      intro conn hconn
      obtain ⟨p, hp, hnet, cf, hcf, ct, hct, hfid, htid, hfin, htin, hfo, hto⟩ :=
        mem_infer_connections hconn
      obtain ⟨cf', hcf', hcfid, hcfnet⟩ := hcons p hp cf.id hfin
      obtain ⟨ct', hct', hctid, hctnet⟩ := hcons p hp ct.id htin
      have hcfeq : cf' = cf := List.inj_on_of_nodup_map hnodup hcf' hcf hcfid
      have hcteq : ct' = ct := List.inj_on_of_nodup_map hnodup hct' hct hctid
      rw [hcfeq] at hcfnet
      rw [hcteq] at hctnet
      exact ⟨cf, hcf, ct, hct, hfid, htid, hnet ▸ hcfnet, hnet ▸ hctnet, hfo, hto⟩

/-! ## Concrete two-container topology (an nginx gateway and a php app
sharing `"net1"`), used by the C6 and C10 witnesses -/

/-- Daemon list entry for the managed nginx container. -/
def sumNginx : ContainerSummary :=
  { id := some "aaa"
    names := some ["/signalforge-nginx"]
    image := some "nginx:latest"
    status := some "Up"
    state := some "running"
    created := some 0
    ports := some [] }

/-- Daemon list entry for the managed php container. -/
def sumPhp : ContainerSummary :=
  { id := some "bbb"
    names := some ["/signalforge-php"]
    image := some "php:8.4-fpm"
    status := some "Up"
    state := some "running"
    created := some 0
    ports := some [] }

/-- Inspect reply for the nginx container. -/
def insNginx : ContainerInspectResponse :=
  { state := some { health := none, running := some true }
    network_settings := some
      { networks := some [("net1", { ip_address := some "172.18.0.2" })]
        ports := some ["80/tcp"] }
    config := some { image := some "nginx:latest" } }

/-- Inspect reply for the php container. -/
def insPhp : ContainerInspectResponse :=
  { state := some { health := none, running := some true }
    network_settings := some
      { networks := some [("net1", { ip_address := some "172.18.0.3" })]
        ports := none }
    config := some { image := some "php:8.4-fpm" } }

/-- Inspect oracle for the two-container daemon. -/
def inspectEx : String → Except String ContainerInspectResponse :=
  fun id => if id == "aaa" then .ok insNginx else .ok insPhp

/-- The topology the two-container daemon yields: one gateway node, one
app node, one `FastCGI` edge on `"net1"`. -/
def topoEx : NetworkTopology :=
  { containers :=
      [ { id := "aaa"
          name := "signalforge-nginx"
          container_type := "gateway"
          networks := ["net1"]
          ip := "172.18.0.2"
          ports := "80"
          health := "healthy"
          cpu := 11
          mem := 291 }
      , { id := "bbb"
          name := "signalforge-php"
          container_type := "app"
          networks := ["net1"]
          ip := "172.18.0.3"
          ports := "-"
          health := "healthy"
          cpu := 14
          mem := 294 } ]
    connections :=
      [ { from_ := "aaa", to_ := "bbb", protocol := "FastCGI", network := "net1" } ] }

/-- The single edge of `topoEx`. -/
def connEx : NetworkConnection :=
  { from_ := "aaa", to_ := "bbb", protocol := "FastCGI", network := "net1" }

/-- Witness for C6: the shared-network property of the concrete
`FastCGI` edge in the two-container topology. -/
theorem topology_edges_share_network_witness :
    ∃ cf ∈ topoEx.containers, ∃ ct ∈ topoEx.containers,
      cf.id = connEx.from_ ∧ ct.id = connEx.to_ ∧
      connEx.network ∈ cf.networks ∧ connEx.network ∈ ct.networks ∧
      cf.container_type ≠ "other" ∧ ct.container_type ≠ "other" :=
  topology_edges_share_network (.ok [sumNginx, sumPhp]) inspectEx topoEx
    (by rfl) (by decide) connEx (by decide)

/-! ## C10: gate-holding discipline of `getNetworkTopology` -/

/-- Counterexample for C10: with two managed containers the trace of one
`getNetworkTopology` call holds the gate across both inspects — it fails
the claimed acquire/request/release-per-request discipline. -/
theorem gate_not_per_request_counterexample :
    get_network_topology_trace [sumNginx, sumPhp] inspectEx =
      [DaemonEvent.acquire, DaemonEvent.listReq, DaemonEvent.inspectReq "aaa",
        DaemonEvent.inspectReq "bbb", DaemonEvent.release] ∧
    per_request_gate (get_network_topology_trace [sumNginx, sumPhp] inspectEx) =
      false := by
  constructor
  · decide
  · decide

/-- The topology loop's trace consists of inspect requests only. -/
lemma topo_loop_trace_only_inspects
    (inspect : String → Except String ContainerInspectResponse) :
    ∀ (l : List ContainerSummary) (e : DaemonEvent),
      e ∈ topo_loop_trace inspect l → ∃ id, e = DaemonEvent.inspectReq id := by
  intro l
  induction l with
  | nil =>
    intro e he
    simp [topo_loop_trace] at he
  | cons c rest ih =>
    intro e he
    simp only [topo_loop_trace] at he
    split at he
    · exact ih e he
    · rcases List.mem_cons.mp he with rfl | htail
      · exact ⟨summary_id c, rfl⟩
      · cases hins : inspect (summary_id c) with
        | error e2 =>
          rw [hins] at htail
          simp at htail
        | ok ins =>
          rw [hins] at htail
          exact ih e htail

/-- C10 (amended): `getNetworkTopology` acquires the gate once at the
start of the call and releases it once when the call returns; the list
request and every per-container inspect are issued under that single
hold, so no other caller's request can interleave between two inspects
of one topology computation. -/
theorem gate_held_across_topology (summaries : List ContainerSummary)
    (inspect : String → Except String ContainerInspectResponse) :
    ∃ reqs : List DaemonEvent,
      get_network_topology_trace summaries inspect =
        DaemonEvent.acquire :: DaemonEvent.listReq ::
          (reqs ++ [DaemonEvent.release]) ∧
      ∀ e ∈ reqs, ∃ id, e = DaemonEvent.inspectReq id :=
  ⟨topo_loop_trace inspect summaries, rfl,
    topo_loop_trace_only_inspects inspect summaries⟩

end SignalForge
